import Mathlib

/-
Verification development for the libtouch scroll library.

The repository ships only the public header `src/libtouch.h`; the scroll
state machine itself (the subject of the specification) is declared there
but not implemented under src/.  The definitions below therefore embed the
data model of the header (enums, the scrollview record, the pan_transform
record and the public operation surface) and, where the header only
declares an operation, model its behaviour from the specification text:
every such definition carries a doc comment starting with
"Modelled from the spec:".

Conventions of the embedding: times are milliseconds, positions and deltas
are real-valued content-dp, per-axis state is explicit and the host event
stream is a list of operations folded over the scrollview state.  Queries
are lazy: sampling the continuous position function has no effect on the
trajectory fields, a committed read only moves the per-axis unread
accumulator base.
-/

set_option autoImplicit false

namespace Libtouch

noncomputable section

/-- Modelled from the spec: the five phases of the per-axis scroll state
machine (the implementation of the machine is absent from src/). -/
inductive Phase where
  | Idle
  | Tracking
  | Kinetic
  | Overscroll
  | BounceBack
deriving DecidableEq

/-- Input source enum of src/libtouch.h (input_source_t). -/
inductive input_source_t where
  | UNDEFINED
  | TOUCHSCREEN
  | TOUCHPAD
  | MOUSEWHEEL
  | MOUSEWHEEL_PRECISE
  | PASSTHROUGH
  | PASSTHROUGH_KINETIC
deriving DecidableEq

/-- Modelled from the spec: friction time constant of the Kinetic phase,
default 325 ms. -/
def tau : ℝ := 325

/-- Modelled from the spec: minimum velocity magnitude sustaining Kinetic
or BounceBack motion, about 0.02 dp per ms. -/
def vmin : ℝ := 1 / 50

/-- Modelled from the spec: rate constant of the critically damped
BounceBack spring, tuned so the spring settles in roughly 350 ms. -/
def omega : ℝ := 1 / 50

/-- Modelled from the spec: gain constant of the overscroll resistance
multiplier. -/
def resistK : ℝ := 3

/-- Modelled from the spec: position tolerance terminating BounceBack. -/
def settleEps : ℝ := 1 / 2

/-- Modelled from the spec: per-axis geometry of a scrollview, with the
bounce flag of each edge of that axis. -/
structure AxisGeom where
  content : ℝ
  viewport : ℝ
  bounceLo : Bool
  bounceHi : Bool

/-- Largest legal viewport offset on an axis: content minus viewport. -/
def AxisGeom.legalHi (g : AxisGeom) : ℝ := g.content - g.viewport

/-- Modelled from the spec: lowest sampled position the axis may report;
one full viewport of overscroll when the low edge bounces, else 0. -/
def AxisGeom.outerLo (g : AxisGeom) : ℝ := if g.bounceLo then -g.viewport else 0

/-- Modelled from the spec: highest sampled position the axis may report;
the content extent when the high edge bounces, else content - viewport. -/
def AxisGeom.outerHi (g : AxisGeom) : ℝ := if g.bounceHi then g.content else g.legalHi

/-- Clamp x into the closed interval from lo to hi. -/
def clampTo (lo hi x : ℝ) : ℝ := max lo (min hi x)

/-- Modelled from the spec: clamp a sampled position into the range the
bounce flags allow. -/
def AxisGeom.edgeResolve (g : AxisGeom) (x : ℝ) : ℝ := clampTo g.outerLo g.outerHi x

/-- Clamp a position into the legal range from 0 to content - viewport. -/
def AxisGeom.legalClamp (g : AxisGeom) (x : ℝ) : ℝ := clampTo 0 g.legalHi x

/-- Geometry sanity: nonnegative viewport no larger than the content. -/
def ValidGeom (g : AxisGeom) : Prop := 0 ≤ g.viewport ∧ g.viewport ≤ g.content

/-- Modelled from the spec: closed-form Kinetic velocity, v0 times
exp (-t / tau). -/
def kinV (v0 t : ℝ) : ℝ := v0 * Real.exp (-t / tau)

/-- Modelled from the spec: closed-form Kinetic position,
p0 + v0 * tau * (1 - exp (-t / tau)). -/
def kinP (p0 v0 t : ℝ) : ℝ := p0 + v0 * tau * (1 - Real.exp (-t / tau))

/-- Shape of the critically damped BounceBack spring, (1 + u) * exp (-u). -/
def bShape (u : ℝ) : ℝ := (1 + u) * Real.exp (-u)

/-- Modelled from the spec: BounceBack position,
edge + (p0 - edge) * (1 + omega t) * exp (-omega t). -/
def bPos (edge p0 t : ℝ) : ℝ := edge + (p0 - edge) * bShape (omega * t)

/-- Time derivative of the BounceBack position. -/
def bVel (edge p0 t : ℝ) : ℝ := -(p0 - edge) * omega ^ 2 * t * Real.exp (-(omega * t))

/-- Velocity of one window entry: delta over its time gap, 0 on a zero gap. -/
def pairVel (e : ℝ × ℝ) : ℝ := if e.1 = 0 then 0 else e.2 / e.1

/-- Weighted sums over the velocity window: weighted velocity total and
weight total, the weight halving with each step into the past. -/
def wvelAux : List (ℝ × ℝ) → ℝ → ℝ × ℝ
  | [], _ => (0, 0)
  | e :: rest, w => (w * pairVel e + (wvelAux rest (w / 2)).1, w + (wvelAux rest (w / 2)).2)

/-- Modelled from the spec: release velocity estimated from the trailing
window of (time gap, delta) pairs by a recency-weighted mean. -/
def estimateV (lst : List (ℝ × ℝ)) : ℝ :=
  if (wvelAux lst 1).2 = 0 then 0 else (wvelAux lst 1).1 / (wvelAux lst 1).2

/-- Modelled from the spec: soft-knee touchpad acceleration gain, 1 at rest
rising toward 2.5 for fast strokes. -/
def accelGain (d : ℝ) : ℝ := 1 + (3 / 2) * |d| / (|d| + 100)

/-- Modelled from the spec: per-source input classifier; identity times
scale everywhere except the touchpad acceleration curve and the imprecise
wheel snap to 120-unit steps. -/
def classify (src : input_source_t) (scale d : ℝ) : ℝ :=
  match src with
  | .TOUCHPAD => scale * d * accelGain d
  | .MOUSEWHEEL => scale * (120 * (round (d / 120) : ℤ))
  | _ => scale * d

/-- Modelled from the spec: whether a release may enter the Kinetic phase
for this source; PASSTHROUGH suppresses Kinetic entry. -/
def kineticAllowed (src : input_source_t) : Bool :=
  match src with
  | .PASSTHROUGH => false
  | _ => true

/-- Modelled from the spec: trajectory state of one axis; the fields the
continuous position function is computed from. -/
structure AxisCore where
  phase : Phase
  p : ℝ
  v : ℝ
  tEntry : ℝ
  tLastEvent : ℝ
  window : List (ℝ × ℝ)
  hadDelta : Bool

/-- Time elapsed inside the current phase, a query before phase entry
being clamped to the entry instant. -/
def elapsed (c : AxisCore) (t : ℝ) : ℝ := max t c.tEntry - c.tEntry

/-- Nearest legal position to the phase-entry position: the BounceBack
target edge. -/
def AxisCore.edge (c : AxisCore) (g : AxisGeom) : ℝ := g.legalClamp c.p

/-- Modelled from the spec: raw continuous position of the axis at time t,
before edge resolution; constant outside the animated phases, the closed
friction form in Kinetic and the damped spring in BounceBack. -/
def rawPos (g : AxisGeom) (c : AxisCore) (t : ℝ) : ℝ :=
  match c.phase with
  | .Idle => c.p
  | .Tracking => c.p
  | .Overscroll => c.p
  | .Kinetic => kinP c.p c.v (elapsed c t)
  | .BounceBack => bPos (c.edge g) c.p (elapsed c t)

/-- Modelled from the spec: the sampled position function p(t) of one
axis; the raw trajectory resolved against the edges the bounce flags
allow. -/
def samplePos (g : AxisGeom) (c : AxisCore) (t : ℝ) : ℝ := g.edgeResolve (rawPos g c t)

/-- Modelled from the spec: current velocity reported at time t. -/
def vAt (g : AxisGeom) (c : AxisCore) (t : ℝ) : ℝ :=
  match c.phase with
  | .Idle => 0
  | .Tracking => estimateV c.window
  | .Overscroll => estimateV c.window
  | .Kinetic => kinV c.v (elapsed c t)
  | .BounceBack => bVel (c.edge g) c.p (elapsed c t)

/-- Quiescence bound after which Tracking decays to Idle, 30 ms. -/
def quiescence : ℝ := 30

/-- Modelled from the spec: phase the axis reports at query time t, the
lazy terminal transitions of Kinetic and BounceBack included. -/
def phaseAt (g : AxisGeom) (c : AxisCore) (t : ℝ) : Phase :=
  match c.phase with
  | .Idle => .Idle
  | .Tracking => if quiescence < max t c.tLastEvent - c.tLastEvent then .Idle else .Tracking
  | .Overscroll => .Overscroll
  | .Kinetic =>
      if rawPos g c t < 0 ∨ g.legalHi < rawPos g c t then
        (if (if rawPos g c t < 0 then g.bounceLo else g.bounceHi) then .Overscroll else .Idle)
      else if |kinV c.v (elapsed c t)| < vmin then .Idle
      else .Kinetic
  | .BounceBack =>
      if |rawPos g c t - c.edge g| < settleEps ∧ |bVel (c.edge g) c.p (elapsed c t)| < vmin then .Idle
      else .BounceBack

/-- Amount by which p is past the legal range, 0 inside it. -/
def overAmt (g : AxisGeom) (p : ℝ) : ℝ := max (-p) (max (p - g.legalHi) 0)

/-- Modelled from the spec: overscroll resistance multiplier
1 / (1 + k |x_over| / viewport). -/
def overResist (g : AxisGeom) (p : ℝ) : ℝ := 1 / (1 + resistK * overAmt g p / g.viewport)

/-- Push a classified delta onto the velocity window, keeping 5 entries;
entries are (time gap to previous event, delta) pairs. -/
def pushWin (c : AxisCore) (t δ : ℝ) : List (ℝ × ℝ) :=
  ((t - c.tLastEvent, δ) :: c.window).take 5

/-- Modelled from the spec: apply a classified delta at time t; absorbs
the current sampled position, applies overscroll resistance past a
bouncing edge, resolves against the edges and re-enters Tracking or
Overscroll. -/
def applyDelta (g : AxisGeom) (c : AxisCore) (t δ : ℝ) : AxisCore :=
  { phase :=
      if g.edgeResolve (samplePos g c t +
            δ * (if samplePos g c t < 0 ∨ g.legalHi < samplePos g c t then overResist g (samplePos g c t) else 1)) < 0 ∨
         g.legalHi < g.edgeResolve (samplePos g c t +
            δ * (if samplePos g c t < 0 ∨ g.legalHi < samplePos g c t then overResist g (samplePos g c t) else 1))
      then .Overscroll else .Tracking
    p := g.edgeResolve (samplePos g c t +
            δ * (if samplePos g c t < 0 ∨ g.legalHi < samplePos g c t then overResist g (samplePos g c t) else 1))
    v := 0
    tEntry := t
    tLastEvent := t
    window := pushWin c t δ
    hadDelta := true }

/-- Modelled from the spec: the interrupt signal; Kinetic absorbs the
sampled position into Tracking with a cleared window, Tracking clears its
window, every other phase self-loops. -/
def applyInterrupt (g : AxisGeom) (c : AxisCore) (t : ℝ) : AxisCore :=
  match c.phase with
  | .Kinetic =>
      { phase := .Tracking, p := samplePos g c t, v := 0, tEntry := t,
        tLastEvent := t, window := [], hadDelta := c.hadDelta }
  | .Tracking => { c with window := [], tLastEvent := t }
  | _ => c

/-- Modelled from the spec: the release signal; a no-op without a
preceding delta, a spring to the edge from past a bouncing edge, Kinetic
entry with the windowed velocity estimate when the source allows it and
the estimate is fast enough, else Idle with the position clamped legal. -/
def applyRelease (src : input_source_t) (g : AxisGeom) (c : AxisCore) (t : ℝ) : AxisCore :=
  if c.hadDelta = false then c
  else if samplePos g c t < 0 ∨ g.legalHi < samplePos g c t then
    { phase := .BounceBack, p := samplePos g c t, v := 0, tEntry := t,
      tLastEvent := t, window := [], hadDelta := false }
  else if kineticAllowed src = true ∧ vmin ≤ |estimateV c.window| then
    { phase := .Kinetic, p := samplePos g c t, v := estimateV c.window, tEntry := t,
      tLastEvent := t, window := [], hadDelta := false }
  else
    { phase := .Idle, p := g.legalClamp (samplePos g c t), v := 0, tEntry := t,
      tLastEvent := t, window := [], hadDelta := false }

/-- Modelled from the spec: position a force jump lands on; the target
resolved against the edges the bounce flags allow. -/
def jumpPos (g : AxisGeom) (x : ℝ) : ℝ := g.edgeResolve x

/-- Modelled from the spec: the force-jump transition; position set to the
resolved target with velocity 0 from any phase, Idle when the target is
legal and BounceBack when it rests past a bouncing edge. -/
def applyJumpCore (g : AxisGeom) (_c : AxisCore) (t x : ℝ) : AxisCore :=
  { phase := if jumpPos g x < 0 ∨ g.legalHi < jumpPos g x then .BounceBack else .Idle
    p := jumpPos g x
    v := 0
    tEntry := t
    tLastEvent := t
    window := []
    hadDelta := false }

/-- Per-axis state as the aggregator holds it: the trajectory core plus
the position at the last committed get_pan read of this axis. -/
structure AxisState where
  core : AxisCore
  lastRead : ℝ

/-- Modelled from the spec: a scrollview aggregate; geometry and bounce
flags per axis, the current input source, scale factors, the predictor
pair, the two axis machines and the per-axis pending-event flags. -/
structure SV where
  gx : AxisGeom
  gy : AxisGeom
  src : input_source_t
  scaleX : ℝ
  scaleY : ℝ
  predV : ℝ
  predF : ℝ
  ax : AxisState
  ay : AxisState
  dirtyX : Bool
  dirtyY : Bool

/-- Trajectory-relevant projection of a scrollview: everything except the
unread accumulator bases and the pending flags. -/
structure SVCore where
  gx : AxisGeom
  gy : AxisGeom
  src : input_source_t
  scaleX : ℝ
  scaleY : ℝ
  predV : ℝ
  predF : ℝ
  cx : AxisCore
  cy : AxisCore

/-- Project a scrollview onto its trajectory core. -/
def SV.core (sv : SV) : SVCore :=
  ⟨sv.gx, sv.gy, sv.src, sv.scaleX, sv.scaleY, sv.predV, sv.predF, sv.ax.core, sv.ay.core⟩

/-- Modelled from the spec: the predicted sample instant of a query issued
at time t; t plus ms_to_vsync, a target in the past clamped to now. -/
def sampT (sv : SV) (t : ℝ) : ℝ := max t (t + sv.predV)

/-- Modelled from the spec: get_pos_x; the sampled absolute x position of
the viewport at the predicted instant of a query at time t. -/
def get_pos_x (sv : SV) (t : ℝ) : ℝ := samplePos sv.gx sv.ax.core (sampT sv t)

/-- Modelled from the spec: get_pos_y. -/
def get_pos_y (sv : SV) (t : ℝ) : ℝ := samplePos sv.gy sv.ay.core (sampT sv t)

/-- Modelled from the spec: the value a get_pan_x read issued at time t
returns; the unread x accumulator, sampled position minus the position at
the last committed x read. -/
def panXval (sv : SV) (t : ℝ) : ℝ := get_pos_x sv t - sv.ax.lastRead

/-- Modelled from the spec: the value a get_pan_y read returns. -/
def panYval (sv : SV) (t : ℝ) : ℝ := get_pos_y sv t - sv.ay.lastRead

/-- True exactly on the Idle phase. -/
def Phase.isIdle : Phase → Bool
  | .Idle => true
  | _ => false

/-- Modelled from the spec: the panned flag of a get_pan issued at time t;
false exactly when no event is pending on either axis and both axes
report Idle. -/
def pannedVal (sv : SV) (t : ℝ) : Bool :=
  sv.dirtyX || sv.dirtyY ||
    !(phaseAt sv.gx sv.ax.core (sampT sv t)).isIdle ||
    !(phaseAt sv.gy sv.ay.core (sampT sv t)).isIdle

/-- Reported x velocity of a query at time t. -/
def velXval (sv : SV) (t : ℝ) : ℝ := vAt sv.gx sv.ax.core (sampT sv t)

/-- Reported y velocity of a query at time t. -/
def velYval (sv : SV) (t : ℝ) : ℝ := vAt sv.gy sv.ay.core (sampT sv t)

/-- The pan_transform record of src/libtouch.h, positions real-valued in
this embedding. -/
structure pan_transform where
  x : ℝ
  y : ℝ
  panned : Bool
  velocity_x : ℝ
  velocity_y : ℝ

/-- Modelled from the spec: the transform a get_pan call issued at time t
reports, before the read is committed. -/
def getPanVal (sv : SV) (t : ℝ) : pan_transform :=
  ⟨panXval sv t, panYval sv t, pannedVal sv t, velXval sv t, velYval sv t⟩

/-- The host-visible operations of the library, each query and event
carrying the monotonic timestamp of its arrival. -/
inductive Op where
  | scroll (t dx dy : ℝ)
  | scrollX (t dx : ℝ)
  | scrollY (t dy : ℝ)
  | interruptEv (t : ℝ)
  | release (t : ℝ)
  | jump (t x y : ℝ)
  | setSource (s : input_source_t)
  | setScale (fx fy : ℝ)
  | setPredict (msv maf : ℝ)
  | panX (t : ℝ)
  | panY (t : ℝ)
  | getPan (t : ℝ)
  | posX (t : ℝ)
  | posY (t : ℝ)

/-- Whether an operation is a query; queries never move the trajectory. -/
def Op.isRead : Op → Bool
  | .panX _ => true
  | .panY _ => true
  | .getPan _ => true
  | .posX _ => true
  | .posY _ => true
  | _ => false

/-- The event subsequence of an operation sequence. -/
def eventsOf (ops : List Op) : List Op := ops.filter (fun o => !o.isRead)

/-- Commit a get_pan_x read at time t: the x accumulator base moves to the
sampled position and the pending x flag clears; the trajectory, the y
axis and its accumulator stay untouched. -/
def commitPanX (sv : SV) (t : ℝ) : SV :=
  { sv with ax := { core := sv.ax.core, lastRead := get_pos_x sv t }, dirtyX := false }

/-- Commit a get_pan_y read at time t. -/
def commitPanY (sv : SV) (t : ℝ) : SV :=
  { sv with ay := { core := sv.ay.core, lastRead := get_pos_y sv t }, dirtyY := false }

/-- Modelled from the spec: effect of one operation on the trajectory
core; queries are the identity here. -/
def stepc (c : SVCore) : Op → SVCore
  | .scroll t dx dy =>
      { c with cx := applyDelta c.gx c.cx t (classify c.src c.scaleX dx),
               cy := applyDelta c.gy c.cy t (classify c.src c.scaleY dy) }
  | .scrollX t dx => { c with cx := applyDelta c.gx c.cx t (classify c.src c.scaleX dx) }
  | .scrollY t dy => { c with cy := applyDelta c.gy c.cy t (classify c.src c.scaleY dy) }
  | .interruptEv t =>
      { c with cx := applyInterrupt c.gx c.cx t, cy := applyInterrupt c.gy c.cy t }
  | .release t =>
      { c with cx := applyRelease c.src c.gx c.cx t, cy := applyRelease c.src c.gy c.cy t }
  | .jump t x y =>
      { c with cx := applyJumpCore c.gx c.cx t x, cy := applyJumpCore c.gy c.cy t y }
  | .setSource s => { c with src := s }
  | .setScale fx fy => { c with scaleX := fx, scaleY := fy }
  | .setPredict msv maf => { c with predV := msv, predF := maf }
  | .panX _ => c
  | .panY _ => c
  | .getPan _ => c
  | .posX _ => c
  | .posY _ => c

/-- Modelled from the spec: effect of one operation on the scrollview.
Events advance the trajectory core and raise the pending flags of the
axes they touch; a force jump additionally rebases the accumulator bases
so the jump discontinuity is not reported by get_pan while pending unread
motion survives it; reads commit accumulators and clear pending flags. -/
def step (sv : SV) (op : Op) : SV :=
  match op with
  | .scroll t dx dy =>
      { sv with
        ax := { core := applyDelta sv.gx sv.ax.core t (classify sv.src sv.scaleX dx),
                lastRead := sv.ax.lastRead },
        ay := { core := applyDelta sv.gy sv.ay.core t (classify sv.src sv.scaleY dy),
                lastRead := sv.ay.lastRead },
        dirtyX := true, dirtyY := true }
  | .scrollX t dx =>
      { sv with
        ax := { core := applyDelta sv.gx sv.ax.core t (classify sv.src sv.scaleX dx),
                lastRead := sv.ax.lastRead },
        dirtyX := true }
  | .scrollY t dy =>
      { sv with
        ay := { core := applyDelta sv.gy sv.ay.core t (classify sv.src sv.scaleY dy),
                lastRead := sv.ay.lastRead },
        dirtyY := true }
  | .interruptEv t =>
      { sv with
        ax := { core := applyInterrupt sv.gx sv.ax.core t, lastRead := sv.ax.lastRead },
        ay := { core := applyInterrupt sv.gy sv.ay.core t, lastRead := sv.ay.lastRead },
        dirtyX := true, dirtyY := true }
  | .release t =>
      { sv with
        ax := { core := applyRelease sv.src sv.gx sv.ax.core t, lastRead := sv.ax.lastRead },
        ay := { core := applyRelease sv.src sv.gy sv.ay.core t, lastRead := sv.ay.lastRead },
        dirtyX := true, dirtyY := true }
  | .jump t x y =>
      { sv with
        ax := { core := applyJumpCore sv.gx sv.ax.core t x,
                lastRead := jumpPos sv.gx x - (get_pos_x sv t - sv.ax.lastRead) },
        ay := { core := applyJumpCore sv.gy sv.ay.core t y,
                lastRead := jumpPos sv.gy y - (get_pos_y sv t - sv.ay.lastRead) },
        dirtyX := true, dirtyY := true }
  | .setSource s => { sv with src := s }
  | .setScale fx fy => { sv with scaleX := fx, scaleY := fy }
  | .setPredict msv maf => { sv with predV := msv, predF := maf }
  | .panX t => commitPanX sv t
  | .panY t => commitPanY sv t
  | .getPan t => commitPanY (commitPanX sv t) t
  | .posX _ => sv
  | .posY _ => sv

/-- Fold a host operation sequence over a scrollview. -/
def runOps (sv : SV) : List Op → SV
  | [] => sv
  | op :: rest => runOps (step sv op) rest

/-- Fresh axis at offset p0, Idle with an empty window and the accumulator
base at the resolved offset. -/
def mkAxis (g : AxisGeom) (p0 : ℝ) : AxisState :=
  { core := { phase := .Idle, p := g.edgeResolve p0, v := 0, tEntry := 0,
              tLastEvent := 0, window := [], hadDelta := false },
    lastRead := g.edgeResolve p0 }

/-- Modelled from the spec: a freshly created scrollview with the given
geometry, source and initial offsets; scale 1, predictor (0, 0). -/
def mkSV (gx gy : AxisGeom) (src : input_source_t) (x0 y0 : ℝ) : SV :=
  { gx := gx, gy := gy, src := src, scaleX := 1, scaleY := 1, predV := 0, predF := 0,
    ax := mkAxis gx x0, ay := mkAxis gy y0, dirtyX := false, dirtyY := false }

/-- The error kinds of the spec error taxonomy. -/
inductive libtouch_error where
  | InvalidHandle
  | InvalidGeometry
  | NotReady
deriving DecidableEq

/-- Saturate an arbitrary integer into the signed 64-bit range. -/
def sat64 (n : ℤ) : ℤ := max (-(2 ^ 63)) (min (2 ^ 63 - 1) n)

/-- Modelled from the spec: add_scroll on a valid handle; every numeric
argument is saturated into the representable range and the call always
completes with the updated scrollview. -/
def add_scroll (sv : SV) (t : ℝ) (mx my : ℤ) : Except libtouch_error SV :=
  Except.ok (step sv (Op.scroll t (sat64 mx) (sat64 my)))

/-- Modelled from the spec: add_scroll_x. -/
def add_scroll_x (sv : SV) (t : ℝ) (mx : ℤ) : Except libtouch_error SV :=
  Except.ok (step sv (Op.scrollX t (sat64 mx)))

/-- Modelled from the spec: add_scroll_y. -/
def add_scroll_y (sv : SV) (t : ℝ) (my : ℤ) : Except libtouch_error SV :=
  Except.ok (step sv (Op.scrollY t (sat64 my)))

/-- Modelled from the spec: add_scroll_interrupt. -/
def add_scroll_interrupt (sv : SV) (t : ℝ) : Except libtouch_error SV :=
  Except.ok (step sv (Op.interruptEv t))

/-- Modelled from the spec: add_scroll_release. -/
def add_scroll_release (sv : SV) (t : ℝ) : Except libtouch_error SV :=
  Except.ok (step sv (Op.release t))

/-- Whether a sequence contains a combined get_pan query; the per-axis
accumulator law is stated over sessions reading x through get_pan_x. -/
def hasGetPan : List Op → Bool
  | [] => false
  | .getPan _ :: _ => true
  | _ :: rest => hasGetPan rest

/-- Sum of the values returned by the get_pan_x reads of a session. -/
def sumPanX (sv : SV) : List Op → ℝ
  | [] => 0
  | op :: rest =>
      (match op with | .panX t => panXval sv t | _ => 0) + sumPanX (step sv op) rest

/-- Modelled from the spec: signed x discontinuity a force jump
introduces, position sampled just before the jump minus the landing
position; get_pan never reports it. -/
def sumJumpX (sv : SV) : List Op → ℝ
  | [] => 0
  | op :: rest =>
      (match op with | .jump t x _ => get_pos_x sv t - jumpPos sv.gx x | _ => 0) +
        sumJumpX (step sv op) rest

/-- Modelled from the spec: force_jump as a scrollview transition. -/
def force_jump (sv : SV) (t x y : ℝ) : SV := step sv (Op.jump t x y)

/-- Modelled from the spec: get_pan; the reported transform paired with
the scrollview after both axis reads commit. -/
def get_pan (sv : SV) (t : ℝ) : pan_transform × SV := (getPanVal sv t, step sv (Op.getPan t))

/-- The scrollview record of src/libtouch.h; the four geometry extents
are unsigned 64-bit integers, the initial offsets signed 64-bit, one
bounce flag per edge.  The implementation-defined state pointer is left
out. -/
structure scrollview where
  content_height : Fin (2 ^ 64)
  content_width : Fin (2 ^ 64)
  viewport_height : Fin (2 ^ 64)
  viewport_width : Fin (2 ^ 64)
  viewport_initial_x : ℤ
  viewport_initial_y : ℤ
  bounce_bottom : Bool
  bounce_top : Bool
  bounce_left : Bool
  bounce_right : Bool

/-- Modelled from the spec: the validation branch of signal_geometry that
reports InvalidGeometry on a negative extent; signal_geometry is declared
in src/libtouch.h but implemented outside src/. -/
def signal_geometry_check (v : scrollview) : Option libtouch_error :=
  if (v.content_height.val : ℤ) < 0 ∨ (v.content_width.val : ℤ) < 0 ∨
     (v.viewport_height.val : ℤ) < 0 ∨ (v.viewport_width.val : ℤ) < 0
  then some libtouch_error.InvalidGeometry else none

/-- Demonstration geometry: content 2000, viewport 500, bounce on both
edges of the axis. -/
def gDemo : AxisGeom := { content := 2000, viewport := 500, bounceLo := true, bounceHi := true }

/-- Fresh axis at offset 0: Idle, empty window, accumulator base 0. -/
def axis0 : AxisState :=
  { core := { phase := .Idle, p := 0, v := 0, tEntry := 0, tLastEvent := 0,
              window := [], hadDelta := false },
    lastRead := 0 }

/-- Demonstration scrollview: both axes on gDemo, touchscreen source,
initial offset (0, 0). -/
def svDemo : SV :=
  { gx := gDemo, gy := gDemo, src := .TOUCHSCREEN, scaleX := 1, scaleY := 1,
    predV := 0, predF := 0, ax := axis0, ay := axis0, dirtyX := false, dirtyY := false }

/-- Event prefix driving the y axis into Kinetic: two deltas of 10 dp at
t = 0 and t = 10, released at t = 10. -/
def kinEvs : List Op := [Op.scrollY 0 10, Op.scrollY 10 10, Op.release 10]

/-- Passthrough scenario scrollview. -/
def svPass : SV :=
  { gx := gDemo, gy := gDemo, src := .PASSTHROUGH, scaleX := 1, scaleY := 1,
    predV := 0, predF := 0, ax := axis0, ay := axis0, dirtyX := false, dirtyY := false }

/-- Passthrough scenario events: add_scroll(0, 50) at t = 0 then
add_scroll_release at t = 1. -/
def passEvs : List Op := [Op.scroll 0 0 50, Op.release 1]

/-- An axis trajectory core sitting in the Kinetic phase. -/
def kinDemoCore : AxisCore :=
  { phase := .Kinetic, p := 20, v := 2 / 3, tEntry := 10, tLastEvent := 10,
    window := [], hadDelta := false }

/-- An axis trajectory core sitting in the BounceBack phase. -/
def bounceDemoCore : AxisCore :=
  { phase := .BounceBack, p := 2000, v := 0, tEntry := 0, tLastEvent := 0,
    window := [], hadDelta := false }

/-- Operation sequence interleaving queries between events. -/
def opsA : List Op := [Op.posX 0, Op.scrollX 0 10, Op.panX 1]

/-- Operation sequence with the same events as opsA under another query
schedule. -/
def opsB : List Op := [Op.scrollX 0 10, Op.posY 2]

end

/- ------------------------------------------------------------------ -/
/- Helper lemmas. -/
/- ------------------------------------------------------------------ -/

theorem clampTo_le_hi {lo hi : ℝ} (h : lo ≤ hi) (x : ℝ) : clampTo lo hi x ≤ hi :=
  max_le h (min_le_left _ _)

theorem le_clampTo (lo hi x : ℝ) : lo ≤ clampTo lo hi x := le_max_left _ _

theorem clampTo_eq_self {lo hi x : ℝ} (h1 : lo ≤ x) (h2 : x ≤ hi) : clampTo lo hi x = x := by
  unfold clampTo
  rw [min_eq_right h2, max_eq_right h1]

theorem outerLo_nonpos {g : AxisGeom} (hg : ValidGeom g) : -g.viewport ≤ g.outerLo := by
  unfold AxisGeom.outerLo
  split
  · exact le_refl _
  · linarith [hg.1]

theorem outerHi_le_content {g : AxisGeom} (hg : ValidGeom g) : g.outerHi ≤ g.content := by
  unfold AxisGeom.outerHi AxisGeom.legalHi
  split
  · exact le_refl _
  · linarith [hg.1]

theorem outerLo_le_outerHi {g : AxisGeom} (hg : ValidGeom g) : g.outerLo ≤ g.outerHi := by
  obtain ⟨h0, h1⟩ := hg
  unfold AxisGeom.outerLo AxisGeom.outerHi AxisGeom.legalHi
  split <;> split <;> linarith

theorem outerLo_nonpos' {g : AxisGeom} (hg : ValidGeom g) : g.outerLo ≤ 0 := by
  unfold AxisGeom.outerLo
  split
  · linarith [hg.1]
  · exact le_refl _

theorem legalHi_le_outerHi {g : AxisGeom} (hg : ValidGeom g) : g.legalHi ≤ g.outerHi := by
  unfold AxisGeom.outerHi AxisGeom.legalHi
  split
  · linarith [hg.1]
  · exact le_refl _

theorem legalHi_nonneg {g : AxisGeom} (hg : ValidGeom g) : 0 ≤ g.legalHi := by
  unfold AxisGeom.legalHi
  linarith [hg.2]

/-- Every edge-resolved position obeys the spec bounds: inside
[-viewport, content] always, and inside the legal range on any side whose
bounce is disabled. -/
theorem edgeResolve_bounds {g : AxisGeom} (hg : ValidGeom g) (x : ℝ) :
    -g.viewport ≤ g.edgeResolve x ∧ g.edgeResolve x ≤ g.content ∧
      (g.bounceLo = false → 0 ≤ g.edgeResolve x) ∧
      (g.bounceHi = false → g.edgeResolve x ≤ g.content - g.viewport) := by
  refine ⟨?_, ?_, ?_, ?_⟩
  · exact le_trans (outerLo_nonpos hg) (le_clampTo _ _ _)
  · exact le_trans (clampTo_le_hi (outerLo_le_outerHi hg) x) (outerHi_le_content hg)
  · intro hb
    have : g.outerLo = 0 := by unfold AxisGeom.outerLo; rw [hb]; simp
    unfold AxisGeom.edgeResolve
    rw [← this]
    exact le_clampTo _ _ _
  · intro hb
    have hhi : g.outerHi = g.content - g.viewport := by
      unfold AxisGeom.outerHi AxisGeom.legalHi; rw [hb]; simp
    unfold AxisGeom.edgeResolve
    calc clampTo g.outerLo g.outerHi x ≤ g.outerHi := clampTo_le_hi (outerLo_le_outerHi hg) x
      _ = g.content - g.viewport := hhi

theorem edgeResolve_idem {g : AxisGeom} (hg : ValidGeom g) (x : ℝ) :
    g.edgeResolve (g.edgeResolve x) = g.edgeResolve x := by
  unfold AxisGeom.edgeResolve
  exact clampTo_eq_self (le_clampTo _ _ _) (clampTo_le_hi (outerLo_le_outerHi hg) x)

theorem edgeResolve_of_legal {g : AxisGeom} (hg : ValidGeom g) {x : ℝ}
    (h0 : 0 ≤ x) (h1 : x ≤ g.legalHi) : g.edgeResolve x = x := by
  unfold AxisGeom.edgeResolve
  exact clampTo_eq_self (le_trans (outerLo_nonpos' hg) h0) (le_trans h1 (legalHi_le_outerHi hg))

theorem elapsed_nonneg (c : AxisCore) (t : ℝ) : 0 ≤ elapsed c t := by
  unfold elapsed
  have := le_max_right t c.tEntry
  linarith

theorem elapsed_mono (c : AxisCore) {t1 t2 : ℝ} (h : t1 ≤ t2) :
    elapsed c t1 ≤ elapsed c t2 := by
  unfold elapsed
  have := max_le_max h (le_refl c.tEntry)
  linarith

theorem elapsed_eq {c : AxisCore} {t : ℝ} (h : c.tEntry ≤ t) : elapsed c t = t - c.tEntry := by
  unfold elapsed
  rw [max_eq_left h]

theorem bShape_nonneg {u : ℝ} (hu : 0 ≤ u) : 0 ≤ bShape u := by
  unfold bShape
  have := Real.exp_pos (-u)
  nlinarith

/-- The damped spring shape (1 + u) exp (-u) is antitone on nonnegative
arguments. -/
theorem bShape_le {a b : ℝ} (ha : 0 ≤ a) (hab : a ≤ b) : bShape b ≤ bShape a := by
  unfold bShape
  have h1 : 1 + (b - a) ≤ Real.exp (b - a) := by
    have := Real.add_one_le_exp (b - a)
    linarith
  have key : 1 + b ≤ (1 + a) * Real.exp (b - a) := by
    nlinarith [mul_nonneg ha (sub_nonneg.mpr hab)]
  have hstep : (1 + b) * Real.exp (-b) ≤ ((1 + a) * Real.exp (b - a)) * Real.exp (-b) :=
    mul_le_mul_of_nonneg_right key (Real.exp_pos _).le
  calc (1 + b) * Real.exp (-b) ≤ ((1 + a) * Real.exp (b - a)) * Real.exp (-b) := hstep
    _ = (1 + a) * Real.exp (b - a + -b) := by rw [mul_assoc, Real.exp_add]
    _ = (1 + a) * Real.exp (-a) := by rw [show b - a + -b = -a by ring]

/-- The damped spring shape is strictly decreasing on nonnegative
arguments. -/
theorem bShape_lt {a b : ℝ} (ha : 0 ≤ a) (hab : a < b) : bShape b < bShape a := by
  unfold bShape
  have hne : b - a ≠ 0 := by linarith
  have h1 : 1 + (b - a) < Real.exp (b - a) := by
    have := Real.add_one_lt_exp hne
    linarith
  have key : 1 + b < (1 + a) * Real.exp (b - a) := by
    nlinarith [mul_nonneg ha (sub_nonneg.mpr hab.le)]
  have hstep : (1 + b) * Real.exp (-b) < ((1 + a) * Real.exp (b - a)) * Real.exp (-b) :=
    mul_lt_mul_of_pos_right key (Real.exp_pos _)
  calc (1 + b) * Real.exp (-b) < ((1 + a) * Real.exp (b - a)) * Real.exp (-b) := hstep
    _ = (1 + a) * Real.exp (b - a + -b) := by rw [mul_assoc, Real.exp_add]
    _ = (1 + a) * Real.exp (-a) := by rw [show b - a + -b = -a by ring]

/-- A committed read, of either axis or of a combined get_pan, never
moves the trajectory core of the scrollview; one step of any operation
acts on the trajectory core exactly as stepc. -/
theorem step_core (sv : SV) (op : Op) : (step sv op).core = stepc sv.core op := by
  cases op <;> rfl

theorem stepc_read (c : SVCore) (op : Op) (h : op.isRead = true) : stepc c op = c := by
  cases op <;> simp_all [Op.isRead, stepc]

theorem runOps_core (sv : SV) (ops : List Op) :
    (runOps sv ops).core = List.foldl stepc sv.core ops := by
  induction ops generalizing sv with
  | nil => rfl
  | cons op rest ih =>
      rw [runOps, List.foldl_cons, ih, step_core]

theorem foldl_stepc_events (c : SVCore) (ops : List Op) :
    List.foldl stepc c (eventsOf ops) = List.foldl stepc c ops := by
  induction ops generalizing c with
  | nil => rfl
  | cons op rest ih =>
      unfold eventsOf
      rw [List.filter_cons]
      by_cases h : op.isRead = true
      · rw [if_neg (by simp [h]), List.foldl_cons, stepc_read c op h]
        exact ih c
      · rw [if_pos (by simp at h; simp [h]), List.foldl_cons, List.foldl_cons]
        exact ih (stepc c op)

theorem get_pos_x_core (sv : SV) (t : ℝ) :
    get_pos_x sv t = samplePos (SV.core sv).gx (SV.core sv).cx (max t (t + (SV.core sv).predV)) := rfl

theorem get_pos_y_core (sv : SV) (t : ℝ) :
    get_pos_y sv t = samplePos (SV.core sv).gy (SV.core sv).cy (max t (t + (SV.core sv).predV)) := rfl

theorem velXval_core (sv : SV) (t : ℝ) :
    velXval sv t = vAt (SV.core sv).gx (SV.core sv).cx (max t (t + (SV.core sv).predV)) := rfl

theorem velYval_core (sv : SV) (t : ℝ) :
    velYval sv t = vAt (SV.core sv).gy (SV.core sv).cy (max t (t + (SV.core sv).predV)) := rfl

theorem step_gx (sv : SV) (op : Op) : (step sv op).gx = sv.gx := by
  cases op <;> rfl

theorem step_gy (sv : SV) (op : Op) : (step sv op).gy = sv.gy := by
  cases op <;> rfl

theorem runOps_gx (sv : SV) (ops : List Op) : (runOps sv ops).gx = sv.gx := by
  induction ops generalizing sv with
  | nil => rfl
  | cons op rest ih => rw [runOps, ih, step_gx]

theorem runOps_gy (sv : SV) (ops : List Op) : (runOps sv ops).gy = sv.gy := by
  induction ops generalizing sv with
  | nil => rfl
  | cons op rest ih => rw [runOps, ih, step_gy]

/-- The x accumulator bookkeeping of a session without combined get_pan
calls telescopes: the get_pan_x returns sum to the movement of the x
accumulator base corrected by the jump discontinuities. -/
theorem pan_acc : ∀ (ops : List Op) (sv : SV), hasGetPan ops = false →
    sumPanX sv ops = (runOps sv ops).ax.lastRead - sv.ax.lastRead + sumJumpX sv ops := by
  intro ops
  induction ops with
  | nil => intro sv _; simp [sumPanX, runOps, sumJumpX]
  | cons op rest ih =>
      intro sv h
      cases op with
      | getPan t => simp [hasGetPan] at h
      | panX t =>
          simp only [sumPanX, sumJumpX, runOps]
          rw [ih _ h]
          have hL : (step sv (Op.panX t)).ax.lastRead = get_pos_x sv t := rfl
          rw [hL, panXval]
          ring
      | jump t x y =>
          simp only [sumPanX, sumJumpX, runOps]
          rw [ih _ h]
          have hL : (step sv (Op.jump t x y)).ax.lastRead =
              jumpPos sv.gx x - (get_pos_x sv t - sv.ax.lastRead) := rfl
          rw [hL]
          ring
      | scroll t dx dy =>
          simp only [sumPanX, sumJumpX, runOps]
          rw [ih _ h]
          have hL : (step sv (Op.scroll t dx dy)).ax.lastRead = sv.ax.lastRead := rfl
          rw [hL]; ring
      | scrollX t dx =>
          simp only [sumPanX, sumJumpX, runOps]
          rw [ih _ h]
          have hL : (step sv (Op.scrollX t dx)).ax.lastRead = sv.ax.lastRead := rfl
          rw [hL]; ring
      | scrollY t dy =>
          simp only [sumPanX, sumJumpX, runOps]
          rw [ih _ h]
          have hL : (step sv (Op.scrollY t dy)).ax.lastRead = sv.ax.lastRead := rfl
          rw [hL]; ring
      | interruptEv t =>
          simp only [sumPanX, sumJumpX, runOps]
          rw [ih _ h]
          have hL : (step sv (Op.interruptEv t)).ax.lastRead = sv.ax.lastRead := rfl
          rw [hL]; ring
      | release t =>
          simp only [sumPanX, sumJumpX, runOps]
          rw [ih _ h]
          have hL : (step sv (Op.release t)).ax.lastRead = sv.ax.lastRead := rfl
          rw [hL]; ring
      | setSource s =>
          simp only [sumPanX, sumJumpX, runOps]
          rw [ih _ h]
          have hL : (step sv (Op.setSource s)).ax.lastRead = sv.ax.lastRead := rfl
          rw [hL]; ring
      | setScale fx fy =>
          simp only [sumPanX, sumJumpX, runOps]
          rw [ih _ h]
          have hL : (step sv (Op.setScale fx fy)).ax.lastRead = sv.ax.lastRead := rfl
          rw [hL]; ring
      | setPredict msv maf =>
          simp only [sumPanX, sumJumpX, runOps]
          rw [ih _ h]
          have hL : (step sv (Op.setPredict msv maf)).ax.lastRead = sv.ax.lastRead := rfl
          rw [hL]; ring
      | panY t =>
          simp only [sumPanX, sumJumpX, runOps]
          rw [ih _ h]
          have hL : (step sv (Op.panY t)).ax.lastRead = sv.ax.lastRead := rfl
          rw [hL]; ring
      | posX t =>
          simp only [sumPanX, sumJumpX, runOps]
          rw [ih _ h]
          have hL : (step sv (Op.posX t)).ax.lastRead = sv.ax.lastRead := rfl
          rw [hL]; ring
      | posY t =>
          simp only [sumPanX, sumJumpX, runOps]
          rw [ih _ h]
          have hL : (step sv (Op.posY t)).ax.lastRead = sv.ax.lastRead := rfl
          rw [hL]; ring

/-- A fresh scrollview samples its resolved initial x offset at any query
time. -/
theorem get_pos_x_mkSV {g : AxisGeom} (hg : ValidGeom g) (gy : AxisGeom)
    (src : input_source_t) (x0 y0 t : ℝ) :
    get_pos_x (mkSV g gy src x0 y0) t = g.edgeResolve x0 := by
  simp only [get_pos_x, mkSV, mkAxis, samplePos, rawPos, sampT]
  exact edgeResolve_idem hg x0

/- ------------------------------------------------------------------ -/
/- Claim theorems. -/
/- ------------------------------------------------------------------ -/

/-- C1: for every host event sequence and every query time t, the sampled
per-axis position lies in [-viewport, content], and on any side whose
bounce edge is disabled it is clamped into the legal range
[0, content - viewport]; stated for every reachable scrollview state on
both axes. -/
theorem C1_position_bounds (sv : SV) (ops : List Op) (t : ℝ)
    (hgx : ValidGeom sv.gx) (hgy : ValidGeom sv.gy) :
    (-sv.gx.viewport ≤ get_pos_x (runOps sv ops) t ∧
     get_pos_x (runOps sv ops) t ≤ sv.gx.content ∧
     (sv.gx.bounceLo = false → 0 ≤ get_pos_x (runOps sv ops) t) ∧
     (sv.gx.bounceHi = false →
        get_pos_x (runOps sv ops) t ≤ sv.gx.content - sv.gx.viewport)) ∧
    (-sv.gy.viewport ≤ get_pos_y (runOps sv ops) t ∧
     get_pos_y (runOps sv ops) t ≤ sv.gy.content ∧
     (sv.gy.bounceLo = false → 0 ≤ get_pos_y (runOps sv ops) t) ∧
     (sv.gy.bounceHi = false →
        get_pos_y (runOps sv ops) t ≤ sv.gy.content - sv.gy.viewport)) := by
  constructor
  · simp only [get_pos_x, samplePos, runOps_gx]
    exact edgeResolve_bounds hgx _
  · simp only [get_pos_y, samplePos, runOps_gy]
    exact edgeResolve_bounds hgy _

/-- Witness for C1 at the demonstration scrollview and a one-delta event
sequence. -/
theorem C1_position_bounds_witness :
    ValidGeom svDemo.gx ∧
      -svDemo.gx.viewport ≤ get_pos_x (runOps svDemo [Op.scrollX 0 10]) 5 := by
  have hv : ValidGeom svDemo.gx := by norm_num [ValidGeom, svDemo, gDemo]
  exact ⟨hv, (C1_position_bounds svDemo [Op.scrollX 0 10] 5 hv hv).1.1⟩

/-- C9: on a valid handle every add_scroll variant is total: for all
int64 arguments the call completes with an updated scrollview (never an
error), and numeric arguments are saturated into the representable signed
64-bit range. -/
theorem C9_add_scroll_total (sv : SV) (t : ℝ) (mx my : ℤ) :
    add_scroll sv t mx my = Except.ok (step sv (Op.scroll t (sat64 mx) (sat64 my))) ∧
    add_scroll_x sv t mx = Except.ok (step sv (Op.scrollX t (sat64 mx))) ∧
    add_scroll_y sv t my = Except.ok (step sv (Op.scrollY t (sat64 my))) ∧
    add_scroll_interrupt sv t = Except.ok (step sv (Op.interruptEv t)) ∧
    add_scroll_release sv t = Except.ok (step sv (Op.release t)) ∧
    -(2 ^ 63) ≤ sat64 mx ∧ sat64 mx ≤ 2 ^ 63 - 1 ∧
    -(2 ^ 63) ≤ sat64 my ∧ sat64 my ≤ 2 ^ 63 - 1 := by
  refine ⟨rfl, rfl, rfl, rfl, rfl, ?_, ?_, ?_, ?_⟩ <;>
    simp only [sat64] <;>
    first
      | exact le_max_left _ _
      | exact max_le (by norm_num) (min_le_left _ _)

/-- C10: the geometry extents of the public scrollview record are
unsigned 64-bit integers, so a negative extent is unrepresentable and the
validation branch of signal_geometry rejecting negative extents can never
fire. -/
theorem C10_unsigned_extents (v : scrollview) :
    signal_geometry_check v = none ∧
    0 ≤ (v.content_height.val : ℤ) ∧ 0 ≤ (v.content_width.val : ℤ) ∧
    0 ≤ (v.viewport_height.val : ℤ) ∧ 0 ≤ (v.viewport_width.val : ℤ) := by
  refine ⟨?_, Int.natCast_nonneg _, Int.natCast_nonneg _,
    Int.natCast_nonneg _, Int.natCast_nonneg _⟩
  unfold signal_geometry_check
  rw [if_neg]
  push_neg
  exact ⟨Int.natCast_nonneg _, Int.natCast_nonneg _,
    Int.natCast_nonneg _, Int.natCast_nonneg _⟩

/-- C2: a get_pan_x immediately repeated with no events between returns 0
the second time (reading clears the x accumulator); reading x never
mutates the y axis; and over any session free of combined get_pan calls,
the get_pan_x returns summed up to a closing read equal the final
position minus the initial position plus the force-jump discontinuities
(position sampled before each jump minus the landing position). -/
theorem C2_accumulator_law :
    (∀ (sv : SV) (t : ℝ), panXval (step sv (Op.panX t)) t = 0) ∧
    (∀ (sv : SV) (t : ℝ), (step sv (Op.panX t)).ay = sv.ay ∧ (step sv (Op.panX t)).gy = sv.gy) ∧
    (∀ (g gy : AxisGeom) (src : input_source_t) (x0 y0 : ℝ) (ops : List Op) (T : ℝ),
       ValidGeom g → hasGetPan ops = false →
       sumPanX (mkSV g gy src x0 y0) ops + panXval (runOps (mkSV g gy src x0 y0) ops) T =
         get_pos_x (runOps (mkSV g gy src x0 y0) ops) T - get_pos_x (mkSV g gy src x0 y0) 0 +
           sumJumpX (mkSV g gy src x0 y0) ops) := by
  refine ⟨?_, ?_, ?_⟩
  · intro sv t
    have h1 : get_pos_x (step sv (Op.panX t)) t = get_pos_x sv t := rfl
    have h2 : (step sv (Op.panX t)).ax.lastRead = get_pos_x sv t := rfl
    rw [panXval, h1, h2, sub_self]
  · intro sv t
    exact ⟨rfl, rfl⟩
  · intro g gy src x0 y0 ops T hg h
    have hacc := pan_acc ops (mkSV g gy src x0 y0) h
    have h0 : get_pos_x (mkSV g gy src x0 y0) 0 = g.edgeResolve x0 :=
      get_pos_x_mkSV hg gy src x0 y0 0
    have hL0 : (mkSV g gy src x0 y0).ax.lastRead = g.edgeResolve x0 := rfl
    rw [panXval, hacc, hL0, h0]
    ring

/-- Witness for C2 on the empty session over the demonstration
geometry. -/
theorem C2_accumulator_law_witness :
    ValidGeom gDemo ∧ hasGetPan ([] : List Op) = false ∧
      sumPanX (mkSV gDemo gDemo .TOUCHSCREEN 0 0) [] +
          panXval (runOps (mkSV gDemo gDemo .TOUCHSCREEN 0 0) []) 0 =
        get_pos_x (runOps (mkSV gDemo gDemo .TOUCHSCREEN 0 0) []) 0 -
          get_pos_x (mkSV gDemo gDemo .TOUCHSCREEN 0 0) 0 +
          sumJumpX (mkSV gDemo gDemo .TOUCHSCREEN 0 0) [] := by
  have hv : ValidGeom gDemo := by norm_num [ValidGeom, gDemo]
  exact ⟨hv, rfl, C2_accumulator_law.2.2 gDemo gDemo .TOUCHSCREEN 0 0 [] 0 hv rfl⟩

/-- C6: query-schedule independence and determinism; two runs fed the
same timestamped event sequence agree on the whole trajectory core and
on every get_pos sample and reported velocity, no matter how many reads
each run interleaves or at which instants the reads sample. -/
theorem C6_determinism (sv : SV) (ops1 ops2 : List Op)
    (h : eventsOf ops1 = eventsOf ops2) :
    (runOps sv ops1).core = (runOps sv ops2).core ∧
    ∀ t, get_pos_x (runOps sv ops1) t = get_pos_x (runOps sv ops2) t ∧
         get_pos_y (runOps sv ops1) t = get_pos_y (runOps sv ops2) t ∧
         velXval (runOps sv ops1) t = velXval (runOps sv ops2) t ∧
         velYval (runOps sv ops1) t = velYval (runOps sv ops2) t := by
  have hc : (runOps sv ops1).core = (runOps sv ops2).core := by
    rw [runOps_core, runOps_core, ← foldl_stepc_events sv.core ops1,
        ← foldl_stepc_events sv.core ops2, h]
  refine ⟨hc, fun t => ⟨?_, ?_, ?_, ?_⟩⟩
  · rw [get_pos_x_core, get_pos_x_core, hc]
  · rw [get_pos_y_core, get_pos_y_core, hc]
  · rw [velXval_core, velXval_core, hc]
  · rw [velYval_core, velYval_core, hc]

/-- Witness for C6 on two schedules sharing one event. -/
theorem C6_determinism_witness :
    eventsOf opsA = eventsOf opsB ∧
      (runOps svDemo opsA).core = (runOps svDemo opsB).core :=
  ⟨rfl, (C6_determinism svDemo opsA opsB rfl).1⟩

theorem outerHi_nonneg {g : AxisGeom} (hg : ValidGeom g) : 0 ≤ g.outerHi :=
  le_trans (legalHi_nonneg hg) (legalHi_le_outerHi hg)

/-- C3: in the Kinetic phase, with no input, the sampled trajectory is
the closed friction form p(t) = p0 + v0 tau (1 - exp(-t / tau)) with
velocity v(t) = v0 exp(-t / tau) and tau = 325 ms; the phase reported at
t is Idle once the speed falls under vmin = 0.02 dp per ms, and on
crossing a hard edge it is Overscroll when that edge bounces and Idle
with the position clamped at the edge when it does not. -/
theorem C3_kinetic_closed_form (g : AxisGeom) (c : AxisCore) (t : ℝ)
    (hg : ValidGeom g) (hph : c.phase = .Kinetic) (ht : c.tEntry ≤ t) :
    samplePos g c t = g.edgeResolve (kinP c.p c.v (t - c.tEntry)) ∧
    vAt g c t = kinV c.v (t - c.tEntry) ∧
    kinV c.v (t - c.tEntry) = c.v * Real.exp (-(t - c.tEntry) / 325) ∧
    kinP c.p c.v (t - c.tEntry) =
      c.p + c.v * 325 * (1 - Real.exp (-(t - c.tEntry) / 325)) ∧
    tau = 325 ∧ vmin = 1 / 50 ∧
    (¬(kinP c.p c.v (t - c.tEntry) < 0 ∨ g.legalHi < kinP c.p c.v (t - c.tEntry)) →
       (|kinV c.v (t - c.tEntry)| < vmin → phaseAt g c t = .Idle) ∧
       (vmin ≤ |kinV c.v (t - c.tEntry)| → phaseAt g c t = .Kinetic)) ∧
    (g.legalHi < kinP c.p c.v (t - c.tEntry) →
       (g.bounceHi = true → phaseAt g c t = .Overscroll) ∧
       (g.bounceHi = false → phaseAt g c t = .Idle ∧ samplePos g c t = g.legalHi)) ∧
    (kinP c.p c.v (t - c.tEntry) < 0 →
       (g.bounceLo = true → phaseAt g c t = .Overscroll) ∧
       (g.bounceLo = false → phaseAt g c t = .Idle ∧ samplePos g c t = 0)) := by
  have he : elapsed c t = t - c.tEntry := elapsed_eq ht
  have hraw : rawPos g c t = kinP c.p c.v (t - c.tEntry) := by
    simp [rawPos, hph, he]
  have hphase : phaseAt g c t =
      (if kinP c.p c.v (t - c.tEntry) < 0 ∨ g.legalHi < kinP c.p c.v (t - c.tEntry) then
        (if (if kinP c.p c.v (t - c.tEntry) < 0 then g.bounceLo else g.bounceHi) then
          Phase.Overscroll else Phase.Idle)
      else if |kinV c.v (t - c.tEntry)| < vmin then Phase.Idle else Phase.Kinetic) := by
    simp [phaseAt, hph, hraw, he]
  refine ⟨?_, ?_, ?_, ?_, rfl, rfl, ?_, ?_, ?_⟩
  · simp [samplePos, hraw]
  · simp [vAt, hph, he]
  · simp [kinV, tau]
  · simp [kinP, tau]
  · intro hno
    constructor
    · intro hv
      rw [hphase, if_neg hno, if_pos hv]
    · intro hv
      rw [hphase, if_neg hno, if_neg (not_lt.mpr hv)]
  · intro hhi
    have hnot0 : ¬(kinP c.p c.v (t - c.tEntry) < 0) := by
      have := legalHi_nonneg hg
      linarith
    constructor
    · intro hb
      rw [hphase, if_pos (Or.inr hhi), if_neg hnot0, hb, if_pos rfl]
    · intro hb
      refine ⟨?_, ?_⟩
      · rw [hphase, if_pos (Or.inr hhi), if_neg hnot0, hb]
        simp
      · have hhiOut : g.outerHi = g.legalHi := by
          unfold AxisGeom.outerHi
          rw [hb]
          simp
        rw [samplePos, hraw]
        unfold AxisGeom.edgeResolve clampTo
        rw [hhiOut, min_eq_left hhi.le,
          max_eq_right (le_trans (outerLo_nonpos' hg) (legalHi_nonneg hg))]
  · intro hlo
    constructor
    · intro hb
      rw [hphase, if_pos (Or.inl hlo), if_pos hlo, hb, if_pos rfl]
    · intro hb
      refine ⟨?_, ?_⟩
      · rw [hphase, if_pos (Or.inl hlo), if_pos hlo, hb]
        simp
      · have hloOut : g.outerLo = 0 := by
          unfold AxisGeom.outerLo
          rw [hb]
          simp
        rw [samplePos, hraw]
        unfold AxisGeom.edgeResolve clampTo
        rw [hloOut, min_eq_right (le_trans hlo.le (outerHi_nonneg hg)),
          max_eq_left hlo.le]

/-- Witness for C3 on a concrete Kinetic core sampled at its entry
instant. -/
theorem C3_kinetic_closed_form_witness :
    ValidGeom gDemo ∧ kinDemoCore.phase = Phase.Kinetic ∧ kinDemoCore.tEntry ≤ 10 ∧
      samplePos gDemo kinDemoCore 10 =
        gDemo.edgeResolve (kinP kinDemoCore.p kinDemoCore.v (10 - kinDemoCore.tEntry)) := by
  have hv : ValidGeom gDemo := by norm_num [ValidGeom, gDemo]
  exact ⟨hv, rfl, le_refl (10 : ℝ),
    (C3_kinetic_closed_form gDemo kinDemoCore 10 hv rfl (le_refl (10 : ℝ))).1⟩

/-- C4: within one phase occupancy the speed is non-increasing in the
Kinetic phase (strictly, for a nonzero entry velocity) and the distance
to the target edge is non-increasing in the BounceBack phase (strictly,
when the phase starts off the edge). -/
theorem C4_monotone_decay (g : AxisGeom) (c : AxisCore) (t1 t2 : ℝ) (h12 : t1 ≤ t2) :
    (c.phase = .Kinetic → |vAt g c t2| ≤ |vAt g c t1|) ∧
    (c.phase = .Kinetic → c.v ≠ 0 → c.tEntry ≤ t1 → t1 < t2 →
       |vAt g c t2| < |vAt g c t1|) ∧
    (c.phase = .BounceBack →
       |rawPos g c t2 - c.edge g| ≤ |rawPos g c t1 - c.edge g|) ∧
    (c.phase = .BounceBack → c.p ≠ c.edge g → c.tEntry ≤ t1 → t1 < t2 →
       |rawPos g c t2 - c.edge g| < |rawPos g c t1 - c.edge g|) := by
  have homega : (0 : ℝ) < omega := by norm_num [omega]
  have habsKin : ∀ s : ℝ, c.phase = .Kinetic →
      |vAt g c s| = |c.v| * Real.exp (-elapsed c s / tau) := by
    intro s hph
    simp [vAt, hph, kinV, abs_mul, Real.abs_exp]
  have hrawB : ∀ s : ℝ, c.phase = .BounceBack →
      rawPos g c s - c.edge g = (c.p - c.edge g) * bShape (omega * elapsed c s) := by
    intro s hph
    simp [rawPos, hph, bPos]
  have habsB : ∀ s : ℝ, c.phase = .BounceBack →
      |rawPos g c s - c.edge g| = |c.p - c.edge g| * bShape (omega * elapsed c s) := by
    intro s hph
    rw [hrawB s hph, abs_mul,
      abs_of_nonneg (bShape_nonneg (mul_nonneg homega.le (elapsed_nonneg c s)))]
  refine ⟨?_, ?_, ?_, ?_⟩
  · intro hph
    rw [habsKin t1 hph, habsKin t2 hph]
    refine mul_le_mul_of_nonneg_left ?_ (abs_nonneg _)
    refine Real.exp_le_exp.mpr ?_
    have := elapsed_mono c h12
    unfold tau
    linarith
  · intro hph hv ht1 hlt
    rw [habsKin t1 hph, habsKin t2 hph]
    refine mul_lt_mul_of_pos_left ?_ (abs_pos.mpr hv)
    refine Real.exp_lt_exp.mpr ?_
    rw [elapsed_eq ht1, elapsed_eq (ht1.trans hlt.le)]
    unfold tau
    linarith
  · intro hph
    rw [habsB t1 hph, habsB t2 hph]
    refine mul_le_mul_of_nonneg_left ?_ (abs_nonneg _)
    exact bShape_le (mul_nonneg homega.le (elapsed_nonneg c t1))
      (mul_le_mul_of_nonneg_left (elapsed_mono c h12) homega.le)
  · intro hph hp ht1 hlt
    rw [habsB t1 hph, habsB t2 hph]
    refine mul_lt_mul_of_pos_left ?_ (abs_pos.mpr (sub_ne_zero.mpr hp))
    refine bShape_lt (mul_nonneg homega.le (elapsed_nonneg c t1)) ?_
    rw [elapsed_eq ht1, elapsed_eq (ht1.trans hlt.le)]
    exact mul_lt_mul_of_pos_left (by linarith) homega

/-- Witness for C4 on a concrete Kinetic core between instants 0 and 1. -/
theorem C4_monotone_decay_witness :
    (0 : ℝ) ≤ 1 ∧ kinDemoCore.phase = Phase.Kinetic ∧
      |vAt gDemo kinDemoCore 1| ≤ |vAt gDemo kinDemoCore 0| :=
  ⟨by norm_num, rfl, (C4_monotone_decay gDemo kinDemoCore 0 1 (by norm_num)).1 rfl⟩

/-- Concrete evaluation of the passthrough scenario: one combined delta
of (0, 50) at t = 0 and a release at t = 1 leave both axes Idle, the y
axis resting at 50. -/
theorem pass_run :
    runOps svPass passEvs =
      { gx := gDemo, gy := gDemo, src := .PASSTHROUGH, scaleX := 1, scaleY := 1,
        predV := 0, predF := 0,
        ax := { core := { phase := .Idle, p := 0, v := 0, tEntry := 1, tLastEvent := 1,
                          window := [], hadDelta := false }, lastRead := 0 },
        ay := { core := { phase := .Idle, p := 50, v := 0, tEntry := 1, tLastEvent := 1,
                          window := [], hadDelta := false }, lastRead := 0 },
        dirtyX := true, dirtyY := true } := by
  have h1 : step svPass (Op.scroll 0 0 50) =
      { gx := gDemo, gy := gDemo, src := .PASSTHROUGH, scaleX := 1, scaleY := 1,
        predV := 0, predF := 0,
        ax := { core := { phase := .Tracking, p := 0, v := 0, tEntry := 0, tLastEvent := 0,
                          window := [(0, 0)], hadDelta := true }, lastRead := 0 },
        ay := { core := { phase := .Tracking, p := 50, v := 0, tEntry := 0, tLastEvent := 0,
                          window := [(0, 50)], hadDelta := true }, lastRead := 0 },
        dirtyX := true, dirtyY := true } := by
    norm_num [step, svPass, axis0, gDemo, applyDelta, samplePos, rawPos, classify,
      AxisGeom.edgeResolve, AxisGeom.legalHi, AxisGeom.outerLo, AxisGeom.outerHi, clampTo,
      pushWin, List.take, max_def, min_def, SV.mk.injEq, AxisState.mk.injEq,
      AxisCore.mk.injEq, Prod.mk.injEq, List.cons.injEq]
  have h2 : step
      ({ gx := gDemo, gy := gDemo, src := .PASSTHROUGH, scaleX := 1, scaleY := 1,
         predV := 0, predF := 0,
         ax := { core := { phase := .Tracking, p := 0, v := 0, tEntry := 0, tLastEvent := 0,
                           window := [(0, 0)], hadDelta := true }, lastRead := 0 },
         ay := { core := { phase := .Tracking, p := 50, v := 0, tEntry := 0, tLastEvent := 0,
                           window := [(0, 50)], hadDelta := true }, lastRead := 0 },
         dirtyX := true, dirtyY := true } : SV) (Op.release 1) =
      { gx := gDemo, gy := gDemo, src := .PASSTHROUGH, scaleX := 1, scaleY := 1,
        predV := 0, predF := 0,
        ax := { core := { phase := .Idle, p := 0, v := 0, tEntry := 1, tLastEvent := 1,
                          window := [], hadDelta := false }, lastRead := 0 },
        ay := { core := { phase := .Idle, p := 50, v := 0, tEntry := 1, tLastEvent := 1,
                          window := [], hadDelta := false }, lastRead := 0 },
        dirtyX := true, dirtyY := true } := by
    norm_num [step, gDemo, applyRelease, kineticAllowed, samplePos, rawPos,
      AxisGeom.edgeResolve, AxisGeom.legalClamp, AxisGeom.legalHi, AxisGeom.outerLo,
      AxisGeom.outerHi, clampTo, max_def, min_def, SV.mk.injEq, AxisState.mk.injEq,
      AxisCore.mk.injEq]
  show runOps (step svPass (Op.scroll 0 0 50)) [Op.release 1] = _
  rw [h1]
  show step _ (Op.release 1) = _
  rw [h2]

/-- C7: under the PASSTHROUGH source the classifier is identity times
scale and a release never enters the Kinetic phase; concretely,
add_scroll(0, 50) followed by add_scroll_release leaves the next get_pan
reporting y = 50 with velocity 0 and the axis Idle. -/
theorem C7_passthrough :
    (∀ sc d : ℝ, classify .PASSTHROUGH sc d = sc * d) ∧
    (∀ (g : AxisGeom) (c : AxisCore) (t : ℝ), c.phase ≠ .Kinetic →
       (applyRelease .PASSTHROUGH g c t).phase ≠ .Kinetic) ∧
    (getPanVal (runOps svPass passEvs) 1).y = 50 ∧
    (getPanVal (runOps svPass passEvs) 1).velocity_y = 0 ∧
    phaseAt (runOps svPass passEvs).gy (runOps svPass passEvs).ay.core 1 = .Idle := by
  refine ⟨fun sc d => rfl, ?_, ?_, ?_, ?_⟩
  · intro g c t hph
    unfold applyRelease
    split_ifs with h1 h2 h3
    · exact hph
    · simp
    · exact absurd h3.1 (by simp [kineticAllowed])
    · simp
  · rw [pass_run]
    norm_num [getPanVal, panYval, get_pos_y, samplePos, rawPos, sampT, gDemo,
      AxisGeom.edgeResolve, AxisGeom.outerLo, AxisGeom.outerHi, AxisGeom.legalHi,
      clampTo, max_def, min_def]
  · rw [pass_run]
    norm_num [getPanVal, velYval, vAt, sampT]
  · rw [pass_run]
    norm_num [phaseAt]

/-- Witness for C7 on a concrete non-Kinetic core. -/
theorem C7_passthrough_witness :
    axis0.core.phase ≠ Phase.Kinetic ∧
      (applyRelease .PASSTHROUGH gDemo axis0.core 0).phase ≠ Phase.Kinetic := by
  have h : axis0.core.phase ≠ Phase.Kinetic := by simp [axis0]
  exact ⟨h, C7_passthrough.2.1 gDemo axis0.core 0 h⟩

/-- C8 counterexample: on the demonstration scrollview (bounce enabled
everywhere, legal y range [0, 1500]) force_jump(0, 9999) does not move
the axis to Idle and the immediately following get_pos_y does not return
the target clamped to the legal range (it reports 2000, one viewport of
overscroll, while the legal clamp of 9999 is 1500). -/
theorem C8_force_jump_counterexample :
    (force_jump svDemo 0 0 9999).ay.core.phase ≠ Phase.Idle ∧
    get_pos_y (force_jump svDemo 0 0 9999) 0 ≠ 1500 ∧
    gDemo.legalClamp 9999 = 1500 := by
  have hjp : jumpPos gDemo 9999 = 2000 := by
    norm_num [jumpPos, gDemo, AxisGeom.edgeResolve, AxisGeom.outerLo, AxisGeom.outerHi,
      AxisGeom.legalHi, clampTo, max_def, min_def]
  have hcore : applyJumpCore gDemo axis0.core 0 9999 =
      { phase := .BounceBack, p := 2000, v := 0, tEntry := 0, tLastEvent := 0,
        window := [], hadDelta := false } := by
    unfold applyJumpCore
    rw [hjp]
    norm_num [gDemo, AxisGeom.legalHi]
  refine ⟨?_, ?_, ?_⟩
  · show (applyJumpCore gDemo axis0.core 0 9999).phase ≠ Phase.Idle
    rw [hcore]
    simp
  · show samplePos gDemo (applyJumpCore gDemo axis0.core 0 9999)
      (sampT (force_jump svDemo 0 0 9999) 0) ≠ 1500
    rw [hcore]
    norm_num [samplePos, rawPos, sampT, bPos, bShape, elapsed, AxisCore.edge, omega,
      force_jump, step, svDemo, gDemo, AxisGeom.edgeResolve, AxisGeom.legalClamp,
      AxisGeom.outerLo, AxisGeom.outerHi, AxisGeom.legalHi, clampTo, max_def, min_def,
      Real.exp_zero]
  · norm_num [AxisGeom.legalClamp, gDemo, AxisGeom.legalHi, clampTo, max_def, min_def]

/-- C8 (amended): force_jump sets the position of each axis to the
target resolved against the bounce-extended bounds with velocity 0, from
any phase; when the target lies in the legal range (in particular
whenever bounce is disabled on both edges, the target then landing on
its legal clamp) the axis becomes Idle and get_pos returns the resolved
target; when the resolved target rests past a bouncing edge the axis
instead routes through BounceBack. -/
theorem C8_force_jump (sv : SV) (t x y : ℝ)
    (hgx : ValidGeom sv.gx) (_hgy : ValidGeom sv.gy) :
    (force_jump sv t x y).ax.core.p = jumpPos sv.gx x ∧
    (force_jump sv t x y).ax.core.v = 0 ∧
    (force_jump sv t x y).ay.core.p = jumpPos sv.gy y ∧
    (force_jump sv t x y).ay.core.v = 0 ∧
    (0 ≤ x → x ≤ sv.gx.legalHi →
       (force_jump sv t x y).ax.core.phase = .Idle ∧
       ∀ t2, get_pos_x (force_jump sv t x y) t2 = x) ∧
    (sv.gx.bounceLo = false → sv.gx.bounceHi = false →
       (force_jump sv t x y).ax.core.phase = .Idle ∧
       ∀ t2, get_pos_x (force_jump sv t x y) t2 = sv.gx.legalClamp x) ∧
    ((jumpPos sv.gx x < 0 ∨ sv.gx.legalHi < jumpPos sv.gx x) →
       (force_jump sv t x y).ax.core.phase = .BounceBack) := by
  refine ⟨rfl, rfl, rfl, rfl, ?_, ?_, ?_⟩
  · intro h0 h1
    have hjl : jumpPos sv.gx x = x := edgeResolve_of_legal hgx h0 h1
    have hcond : ¬(jumpPos sv.gx x < 0 ∨ sv.gx.legalHi < jumpPos sv.gx x) := by
      rw [hjl]
      push_neg
      exact ⟨h0, h1⟩
    have hcore : applyJumpCore sv.gx sv.ax.core t x =
        { phase := .Idle, p := jumpPos sv.gx x, v := 0, tEntry := t, tLastEvent := t,
          window := [], hadDelta := false } := by
      unfold applyJumpCore
      rw [if_neg hcond]
    constructor
    · show (applyJumpCore sv.gx sv.ax.core t x).phase = Phase.Idle
      rw [hcore]
    · intro t2
      show samplePos sv.gx (applyJumpCore sv.gx sv.ax.core t x)
        (sampT (force_jump sv t x y) t2) = x
      rw [hcore]
      simp only [samplePos, rawPos]
      rw [hjl]
      exact edgeResolve_of_legal hgx h0 h1
  · intro hblo hbhi
    have hjl : jumpPos sv.gx x = sv.gx.legalClamp x := by
      unfold jumpPos AxisGeom.edgeResolve AxisGeom.legalClamp AxisGeom.outerLo AxisGeom.outerHi
      rw [hblo, hbhi]
      simp
    have h0 : 0 ≤ sv.gx.legalClamp x := le_clampTo _ _ _
    have h1 : sv.gx.legalClamp x ≤ sv.gx.legalHi := clampTo_le_hi (legalHi_nonneg hgx) x
    have hcond : ¬(jumpPos sv.gx x < 0 ∨ sv.gx.legalHi < jumpPos sv.gx x) := by
      rw [hjl]
      push_neg
      exact ⟨h0, h1⟩
    have hcore : applyJumpCore sv.gx sv.ax.core t x =
        { phase := .Idle, p := jumpPos sv.gx x, v := 0, tEntry := t, tLastEvent := t,
          window := [], hadDelta := false } := by
      unfold applyJumpCore
      rw [if_neg hcond]
    constructor
    · show (applyJumpCore sv.gx sv.ax.core t x).phase = Phase.Idle
      rw [hcore]
    · intro t2
      show samplePos sv.gx (applyJumpCore sv.gx sv.ax.core t x)
        (sampT (force_jump sv t x y) t2) = sv.gx.legalClamp x
      rw [hcore]
      simp only [samplePos, rawPos]
      rw [hjl]
      exact edgeResolve_of_legal hgx h0 h1
  · intro hcond
    show (applyJumpCore sv.gx sv.ax.core t x).phase = Phase.BounceBack
    unfold applyJumpCore
    rw [if_pos hcond]

/-- Witness for the amended C8 on a legal jump target. -/
theorem C8_force_jump_witness :
    ValidGeom svDemo.gx ∧
      (force_jump svDemo 0 100 0).ax.core.p = jumpPos svDemo.gx 100 := by
  have hv : ValidGeom svDemo.gx := by norm_num [ValidGeom, svDemo, gDemo]
  exact ⟨hv, (C8_force_jump svDemo 0 100 0 hv hv).1⟩

/-- Concrete evaluation of the flick scenario: two 10 dp deltas at t = 0
and t = 10 released at t = 10 leave the y axis in Kinetic at p = 20 with
the windowed velocity estimate 2 / 3 dp per ms. -/
theorem kin_run :
    runOps svDemo kinEvs =
      { gx := gDemo, gy := gDemo, src := .TOUCHSCREEN, scaleX := 1, scaleY := 1,
        predV := 0, predF := 0,
        ax := axis0,
        ay := { core := { phase := .Kinetic, p := 20, v := 2 / 3, tEntry := 10,
                          tLastEvent := 10, window := [], hadDelta := false },
                lastRead := 0 },
        dirtyX := true, dirtyY := true } := by
  have h1 : step svDemo (Op.scrollY 0 10) =
      { gx := gDemo, gy := gDemo, src := .TOUCHSCREEN, scaleX := 1, scaleY := 1,
        predV := 0, predF := 0,
        ax := axis0,
        ay := { core := { phase := .Tracking, p := 10, v := 0, tEntry := 0,
                          tLastEvent := 0, window := [(0, 10)], hadDelta := true },
                lastRead := 0 },
        dirtyX := false, dirtyY := true } := by
    norm_num [step, svDemo, axis0, gDemo, applyDelta, samplePos, rawPos, classify,
      AxisGeom.edgeResolve, AxisGeom.legalHi, AxisGeom.outerLo, AxisGeom.outerHi, clampTo,
      pushWin, List.take, max_def, min_def, SV.mk.injEq, AxisState.mk.injEq,
      AxisCore.mk.injEq, Prod.mk.injEq, List.cons.injEq]
  have h2 : step
      ({ gx := gDemo, gy := gDemo, src := .TOUCHSCREEN, scaleX := 1, scaleY := 1,
         predV := 0, predF := 0,
         ax := axis0,
         ay := { core := { phase := .Tracking, p := 10, v := 0, tEntry := 0,
                           tLastEvent := 0, window := [(0, 10)], hadDelta := true },
                 lastRead := 0 },
         dirtyX := false, dirtyY := true } : SV) (Op.scrollY 10 10) =
      { gx := gDemo, gy := gDemo, src := .TOUCHSCREEN, scaleX := 1, scaleY := 1,
        predV := 0, predF := 0,
        ax := axis0,
        ay := { core := { phase := .Tracking, p := 20, v := 0, tEntry := 10,
                          tLastEvent := 10, window := [(10, 10), (0, 10)], hadDelta := true },
                lastRead := 0 },
        dirtyX := false, dirtyY := true } := by
    norm_num [step, gDemo, applyDelta, samplePos, rawPos, classify,
      AxisGeom.edgeResolve, AxisGeom.legalHi, AxisGeom.outerLo, AxisGeom.outerHi, clampTo,
      pushWin, List.take, max_def, min_def, SV.mk.injEq, AxisState.mk.injEq,
      AxisCore.mk.injEq, Prod.mk.injEq, List.cons.injEq]
  have h3 : step
      ({ gx := gDemo, gy := gDemo, src := .TOUCHSCREEN, scaleX := 1, scaleY := 1,
         predV := 0, predF := 0,
         ax := axis0,
         ay := { core := { phase := .Tracking, p := 20, v := 0, tEntry := 10,
                           tLastEvent := 10, window := [(10, 10), (0, 10)], hadDelta := true },
                 lastRead := 0 },
         dirtyX := false, dirtyY := true } : SV) (Op.release 10) =
      { gx := gDemo, gy := gDemo, src := .TOUCHSCREEN, scaleX := 1, scaleY := 1,
        predV := 0, predF := 0,
        ax := axis0,
        ay := { core := { phase := .Kinetic, p := 20, v := 2 / 3, tEntry := 10,
                          tLastEvent := 10, window := [], hadDelta := false },
                lastRead := 0 },
        dirtyX := true, dirtyY := true } := by
    norm_num [step, gDemo, axis0, applyRelease, kineticAllowed, samplePos, rawPos,
      estimateV, wvelAux, pairVel, vmin, abs_of_nonneg,
      AxisGeom.edgeResolve, AxisGeom.legalClamp, AxisGeom.legalHi, AxisGeom.outerLo,
      AxisGeom.outerHi, clampTo, max_def, min_def, SV.mk.injEq, AxisState.mk.injEq,
      AxisCore.mk.injEq]
  show runOps (step svDemo (Op.scrollY 0 10)) [Op.scrollY 10 10, Op.release 10] = _
  rw [h1]
  show runOps (step _ (Op.scrollY 10 10)) [Op.release 10] = _
  rw [h2]
  show step _ (Op.release 10) = _
  rw [h3]

/-- C5 counterexample: after a flick leaves the y axis in Kinetic, a
get_pan at t = 10 immediately followed by a second get_pan at the same
instant (no events between) reports panned = true on the second call,
because the axis is still animating, where the claim demands
panned = false. -/
theorem C5_counterexample :
    (getPanVal (step (runOps svDemo kinEvs) (Op.getPan 10)) 10).panned = true := by
  rw [kin_run]
  norm_num [getPanVal, pannedVal, step, commitPanX, commitPanY, phaseAt, Phase.isIdle,
    rawPos, samplePos, get_pos_x, get_pos_y, sampT, kinP, kinV, elapsed, tau, vmin,
    axis0, gDemo, AxisGeom.edgeResolve, AxisGeom.outerLo, AxisGeom.outerHi,
    AxisGeom.legalHi, clampTo, abs_of_nonneg, max_def, min_def, Real.exp_zero]

/-- C5 (amended): get_pan reports panned = false exactly when no event
is pending on either axis and both axes report Idle at the sampled
instant; a second get_pan at the same instant with no events between
returns zero deltas on both axes, and it reports panned = false provided
both axes report Idle (in an animating phase such as Kinetic the second
call still reports panned = true). -/
theorem C5_panned_iff (sv : SV) (t : ℝ) :
    (pannedVal sv t = false ↔
       sv.dirtyX = false ∧ sv.dirtyY = false ∧
       phaseAt sv.gx sv.ax.core (sampT sv t) = .Idle ∧
       phaseAt sv.gy sv.ay.core (sampT sv t) = .Idle) ∧
    (getPanVal (step sv (Op.getPan t)) t).x = 0 ∧
    (getPanVal (step sv (Op.getPan t)) t).y = 0 ∧
    (phaseAt sv.gx sv.ax.core (sampT sv t) = .Idle →
     phaseAt sv.gy sv.ay.core (sampT sv t) = .Idle →
       (getPanVal (step sv (Op.getPan t)) t).panned = false) := by
  have hIdle : ∀ p : Phase, p.isIdle = true ↔ p = .Idle := by
    intro p
    cases p <;> simp [Phase.isIdle]
  refine ⟨?_, sub_self (get_pos_x sv t), sub_self (get_pos_y sv t), ?_⟩
  · simp [pannedVal, Bool.or_eq_false_iff, Bool.not_eq_false', hIdle, and_assoc]
  · intro hx hy
    simp only [getPanVal, pannedVal, step, commitPanX, commitPanY, sampT] at *
    rw [hx, hy]
    simp [Phase.isIdle]

/-- Witness for the amended C5 on an Idle scrollview. -/
theorem C5_panned_iff_witness :
    phaseAt svDemo.gx svDemo.ax.core (sampT svDemo 0) = Phase.Idle ∧
      (getPanVal (step svDemo (Op.getPan 0)) 0).panned = false := by
  have hx : phaseAt svDemo.gx svDemo.ax.core (sampT svDemo 0) = Phase.Idle := rfl
  exact ⟨hx, (C5_panned_iff svDemo 0).2.2.2 hx hx⟩

end Libtouch

